import Mathlib

/-!
Verification of the portscan-delta-reporter orchestration server.

This file embeds the data model and the operations of the server
(`src/server/app`) as executable Lean definitions and proves or refutes
the testable properties stated for it.  Timestamps are modelled as
natural numbers (minutes), database rows as structures, database tables
as lists of rows, and JSON maps as association lists whose update
semantics follow Python dict semantics (replace in place, append new
keys at the end).
-/

/-- Per-port detail record stored inside `parsed_results`
(`scan_result.py`, `_parse_nmap_output`). -/
structure PortDetail where
  protocol : String
  name : String
  product : String
  version : String
  extrainfo : String
  deriving DecidableEq, Repr

/-- Per-target entry of the `parsed_results` JSON column of a
`ScanResult` row (`scan_result.py` lines 24-36). -/
structure HostEntry where
  hostname : String
  state : String
  open_ports : List Nat
  port_details : List (Nat × PortDetail)
  deriving DecidableEq, Repr

/-- The `summary_stats` object of a result submission
(`api.py`, `receive_scan_results` docstring). -/
structure SummaryStats where
  total_targets : Nat
  scanned_targets : Nat
  error_targets : Nat
  total_open_ports : Nat
  deriving DecidableEq, Repr

/-- A result submission payload sent by a client agent
(`api.py`, `receive_scan_results`). -/
structure Submission where
  result_id : String
  task_id : String
  client_id : String
  status : String
  parsed_results : List (String × HostEntry)
  summary_stats : SummaryStats
  deriving DecidableEq, Repr

/-- A row of the `scan_results` table (`scan_result.py`). -/
structure ScanResultRec where
  result_id : String
  scan_id : Nat
  status : String
  parsed_results : List (String × HostEntry)
  total_targets : Nat
  completed_targets : Nat
  failed_targets : Nat
  total_open_ports : Nat
  contributing_clients : List String
  started_at : Option Nat
  completed_at : Option Nat
  updated_at : Option Nat
  deriving DecidableEq, Repr

/-- A row of the `scan_tasks` table (`scan_task.py`), restricted to the
fields the aggregation path touches. -/
structure TaskRec where
  task_id : String
  task_group_id : String
  client_id : String
  status : String
  completed_at : Option Nat
  deriving DecidableEq, Repr

/-- `ScanResult.mark_complete` (`scan_result.py` lines 223-232). -/
def markComplete (now : Nat) (r : ScanResultRec) : ScanResultRec :=
  { r with status := "completed", completed_at := some now }

/-- `ScanResult.mark_failed` (`scan_result.py` lines 234-248). -/
def markFailed (now : Nat) (r : ScanResultRec) : ScanResultRec :=
  { r with status := "failed", completed_at := some now }

/-- `ScanTask.complete` (`scan_task.py` lines 57-69): sets the task
status to completed (the delta-generation tail is dead code behind an
unconditional `return`). -/
def taskComplete (now : Nat) (t : TaskRec) : TaskRec :=
  { t with status := "completed", completed_at := some now }

/-- `ScanTask.mark_failed` (`scan_task.py` lines 81-85). -/
def taskMarkFailed (now : Nat) (t : TaskRec) : TaskRec :=
  { t with status := "failed", completed_at := some now }

/-- The body of `receive_scan_results` (`api.py` lines 326-378) once the
submission has been validated and the `ScanResult` row with the
submitted `result_id` has been found: the stored `parsed_results` is
assigned wholesale from the submission, the counters are taken from the
submitted `summary_stats`, the submitting client is appended to
`contributing_clients` when absent, and the result plus the matching
task are marked completed or failed according to the submitted status. -/
def receiveScanResults (now : Nat) (r : ScanResultRec) (tasks : List TaskRec)
    (sub : Submission) : ScanResultRec × List TaskRec :=
  let r1 : ScanResultRec :=
    { r with
      parsed_results := sub.parsed_results
      total_targets := sub.summary_stats.total_targets
      completed_targets := sub.summary_stats.scanned_targets
      failed_targets := sub.summary_stats.error_targets
      total_open_ports := sub.summary_stats.total_open_ports
      contributing_clients :=
        if sub.client_id ∈ r.contributing_clients then r.contributing_clients
        else r.contributing_clients ++ [sub.client_id]
      started_at := if r.started_at = none then some now else r.started_at }
  let step : ScanResultRec × List TaskRec :=
    if sub.status = "completed" then
      (markComplete now r1,
        tasks.map fun t => if t.task_id = sub.task_id then taskComplete now t else t)
    else if sub.status = "failed" then
      (markFailed now r1,
        tasks.map fun t => if t.task_id = sub.task_id then taskMarkFailed now t else t)
    else (r1, tasks)
  ({ step.1 with updated_at := some now }, step.2)

/-- The stored open-port list of one host of one result row. -/
def openPortsOf (r : ScanResultRec) (host : String) : List Nat :=
  ((r.parsed_results.lookup host).map HostEntry.open_ports).getD []

/-- A task status counted as terminal by the specification. -/
def terminalTask (s : String) : Prop :=
  s = "completed" ∨ s = "failed"

instance (s : String) : Decidable (terminalTask s) := by
  unfold terminalTask; infer_instance

/-- Host entry holding exactly the given open ports and nothing else. -/
def bareEntry (ports : List Nat) : HostEntry :=
  { hostname := "", state := "up", open_ports := ports, port_details := [] }

/-- An existing result row whose host X already stores open port 80. -/
def c1Result0 : ScanResultRec :=
  { result_id := "result_789", scan_id := 1, status := "pending"
    parsed_results := [("X", bareEntry [80])]
    total_targets := 1, completed_targets := 1, failed_targets := 0
    total_open_ports := 1, contributing_clients := ["agent1"]
    started_at := some 1, completed_at := none, updated_at := some 1 }

/-- A later submission for the same result id reporting only port 443 on
host X. -/
def c1Submission2 : Submission :=
  { result_id := "result_789", task_id := "task_2", client_id := "agent2"
    status := "completed"
    parsed_results := [("X", bareEntry [443])]
    summary_stats :=
      { total_targets := 1, scanned_targets := 1, error_targets := 0
        total_open_ports := 1 } }

/-- Claim C1 counterexample: with host X already stored holding open
port 80, a later submission reporting port 443 leaves X with open ports
exactly `[443]`, not the set union `[80, 443]` the claim requires. -/
theorem c1_counterexample :
    openPortsOf (receiveScanResults 2 c1Result0 [] c1Submission2).1 "X" = [443] ∧
    openPortsOf (receiveScanResults 2 c1Result0 [] c1Submission2).1 "X" ≠ [80, 443] := by
  constructor <;> decide

/-- Claim C1 amended: a submission for an existing result id replaces
the stored `parsed_results` wholesale with the submitted ones (last
write wins), and resubmitting the identical payload at the same instant
changes nothing. -/
theorem c1_last_write_wins (now : Nat) (r : ScanResultRec) (tasks : List TaskRec)
    (sub : Submission) :
    (receiveScanResults now r tasks sub).1.parsed_results = sub.parsed_results ∧
    receiveScanResults now (receiveScanResults now r tasks sub).1
        (receiveScanResults now r tasks sub).2 sub
      = receiveScanResults now r tasks sub := by
  cases r
  constructor
  · simp only [receiveScanResults]
    split_ifs <;> rfl
  · simp only [receiveScanResults, markComplete, markFailed]
    split_ifs with h1 h2 <;>
      simp_all [taskComplete, taskMarkFailed, List.map_map, Function.comp]
    all_goals
      intro t _ h
      split_ifs at * <;> simp_all

/-- A pending aggregated result with two sibling tasks outstanding. -/
def c2Result0 : ScanResultRec :=
  { result_id := "result_900", scan_id := 2, status := "pending"
    parsed_results := []
    total_targets := 2, completed_targets := 0, failed_targets := 0
    total_open_ports := 0, contributing_clients := []
    started_at := none, completed_at := none, updated_at := none }

/-- Two sibling tasks of one task group, both still assigned. -/
def c2Tasks : List TaskRec :=
  [ { task_id := "t1", task_group_id := "g1", client_id := "agent1"
      status := "assigned", completed_at := none },
    { task_id := "t2", task_group_id := "g1", client_id := "agent2"
      status := "assigned", completed_at := none } ]

/-- A submission from the first agent reporting its own task completed
while the sibling task is still outstanding. -/
def c2Submission : Submission :=
  { result_id := "result_900", task_id := "t1", client_id := "agent1"
    status := "completed", parsed_results := []
    summary_stats :=
      { total_targets := 2, scanned_targets := 1, error_targets := 0
        total_open_ports := 0 } }

/-- Claim C2 counterexample: after one of two sibling tasks submits a
completed result, the aggregated status is already `completed` even
though the sibling task is not terminal, so the claimed equivalence
(completed iff every sibling terminal and none failed) is false. -/
theorem c2_counterexample :
    ¬ ((receiveScanResults 5 c2Result0 c2Tasks c2Submission).1.status = "completed" ↔
        ((∀ t ∈ (receiveScanResults 5 c2Result0 c2Tasks c2Submission).2,
            terminalTask t.status) ∧
          ∀ t ∈ (receiveScanResults 5 c2Result0 c2Tasks c2Submission).2,
            t.status ≠ "failed")) := by
  decide

/-- Claim C2 amended: the aggregated status is never recomputed from the
sibling tasks; it simply mirrors each submission (completed or failed),
and the value `partial` is never produced by result submission. -/
theorem c2_status_from_submission (now : Nat) (r : ScanResultRec)
    (tasks : List TaskRec) (sub : Submission) :
    ((receiveScanResults now r tasks sub).1.status = "partial" →
      r.status = "partial") ∧
    (sub.status = "completed" ∨ sub.status = "failed" →
      (receiveScanResults now r tasks sub).1.status = sub.status) := by
  unfold receiveScanResults markComplete markFailed
  constructor
  · split_ifs <;> simp_all
  · rintro (h | h) <;> simp_all

/-- Claim C2 witness: the amended theorem applied to the concrete
two-task scenario. -/
theorem c2_witness :
    (c2Submission.status = "completed" ∨ c2Submission.status = "failed") ∧
    (receiveScanResults 5 c2Result0 c2Tasks c2Submission).1.status
      = c2Submission.status :=
  ⟨by decide,
    (c2_status_from_submission 5 c2Result0 c2Tasks c2Submission).2 (by decide)⟩

/-- The hosts of one snapshot of per-target results. -/
def snapHosts (s : List (String × HostEntry)) : List String :=
  s.map Prod.fst

/-- The open ports recorded for one host of a snapshot. -/
def snapPorts (s : List (String × HostEntry)) (h : String) : List Nat :=
  ((s.lookup h).map HostEntry.open_ports).getD []

/-- The detail record for one port of one host of a snapshot. -/
def snapDetail (s : List (String × HostEntry)) (h : String) (p : Nat) :
    Option PortDetail :=
  (s.lookup h).bind fun e => e.port_details.lookup p

/-- The service fields compared pairwise by the Delta Comparator. -/
def svcFields (d : PortDetail) : String × String × String × String :=
  (d.name, d.product, d.version, d.extrainfo)

/-- The structured delta payload of a comparison. -/
structure DeltaData where
  new_hosts : List String
  removed_hosts : List String
  added_ports : List (String × Nat)
  removed_ports : List (String × Nat)
  changed_services : List (String × Nat × PortDetail × PortDetail)
  total_new_hosts : Nat
  total_removed_hosts : Nat
  total_new_ports : Nat
  total_closed_ports : Nat
  total_changed_services : Nat
  deriving DecidableEq, Repr

/-- Modelled from the spec: `ScanResult.compare_with` is invoked by
`DeltaReport.generate_from_results` (`delta_report.py` line 99) and by
the delta service, but its definition is not among the provided server
sources.  Following spec section 4.5 steps 2 to 6: new hosts are the
hosts of the current snapshot absent from the baseline, removed hosts
the converse; per host, added (resp. removed) ports are the current
(resp. baseline) ports absent on the other side, with the ports of
wholly new or wholly removed hosts folded into the same lists; a
changed-service entry is recorded for every port present on both sides
of a common host whose service fields (name, product, version, extra
info) differ; the summary counts are the lengths of those lists. -/
def compareWith (baseline current : List (String × HostEntry)) : DeltaData :=
  let newHosts := (snapHosts current).filter fun h => decide (h ∉ snapHosts baseline)
  let removedHosts := (snapHosts baseline).filter fun h => decide (h ∉ snapHosts current)
  let addedPorts := (snapHosts current).flatMap fun h =>
    ((snapPorts current h).filter fun p => decide (p ∉ snapPorts baseline h)).map
      fun p => (h, p)
  let removedPorts := (snapHosts baseline).flatMap fun h =>
    ((snapPorts baseline h).filter fun p => decide (p ∉ snapPorts current h)).map
      fun p => (h, p)
  let changed := ((snapHosts current).filter fun h =>
      decide (h ∈ snapHosts baseline)).flatMap fun h =>
    ((snapPorts current h).filter fun p =>
        decide (p ∈ snapPorts baseline h)).filterMap fun p =>
      match snapDetail baseline h p, snapDetail current h p with
      | some dbp, some dcp =>
          if svcFields dbp ≠ svcFields dcp then some (h, p, dbp, dcp) else none
      | _, _ => none
  { new_hosts := newHosts
    removed_hosts := removedHosts
    added_ports := addedPorts
    removed_ports := removedPorts
    changed_services := changed
    total_new_hosts := newHosts.length
    total_removed_hosts := removedHosts.length
    total_new_ports := addedPorts.length
    total_closed_ports := removedPorts.length
    total_changed_services := changed.length }

/-- Claim C3: the comparison is deterministic (recomputation on equal
inputs yields an identical report), the new-host list of
`compareWith baseline current` equals the removed-host list of
`compareWith current baseline`, and the comparison is not symmetric. -/
theorem c3_compare_deterministic_asymmetric
    (baseline current : List (String × HostEntry)) :
    (∀ b2 c2, b2 = baseline → c2 = current →
      compareWith b2 c2 = compareWith baseline current) ∧
    (compareWith baseline current).new_hosts
      = (compareWith current baseline).removed_hosts ∧
    ∃ b c : List (String × HostEntry), compareWith b c ≠ compareWith c b := by
  refine ⟨fun b2 c2 hb hc => by rw [hb, hc], rfl, ?_⟩
  exact ⟨[], [("X", bareEntry [80])], by decide⟩

/-- Claim C3 witness: the theorem applied to a concrete baseline and
current snapshot, with its equality hypotheses discharged. -/
theorem c3_witness :
    compareWith [] [("Y", bareEntry [22])] = compareWith [] [("Y", bareEntry [22])] ∧
    (compareWith [] [("Y", bareEntry [22])]).new_hosts
      = (compareWith [("Y", bareEntry [22])] []).removed_hosts :=
  ⟨(c3_compare_deterministic_asymmetric [] [("Y", bareEntry [22])]).1 _ _ rfl rfl,
    (c3_compare_deterministic_asymmetric [] [("Y", bareEntry [22])]).2.1⟩

/-- A row of the `clients` table (`client.py`). -/
structure ClientRec where
  client_id : String
  hostname : String
  ip_address : String
  port : Nat
  scan_range : Option String
  last_seen : Option Nat
  status : String
  is_approved : Bool
  is_hidden : Bool
  deriving DecidableEq, Repr

/-- `Client.mark_online` (`client.py` lines 58-71): a no-op for an
unapproved client, otherwise sets the status to online and refreshes
the last-seen timestamp. -/
def clientMarkOnline (now : Nat) (c : ClientRec) : ClientRec :=
  if !c.is_approved then c
  else { c with status := "online", is_hidden := false, last_seen := some now }

/-- `Client.mark_offline` (`client.py` lines 73-75). -/
def clientMarkOffline (c : ClientRec) : ClientRec :=
  { c with status := "offline" }

/-- The registration payload of `register_client` and
`client_heartbeat` (`api.py`). -/
structure RegisterPayload where
  client_id : String
  hostname : Option String
  ip_address : Option String
  scan_range : Option String
  deriving DecidableEq, Repr

/-- `register_client` (`api.py` lines 28-85): an existing row is updated
and passed through `mark_online`; a fresh identity is inserted with
`status="online"` directly, its approval flag left at the column
default `False`. -/
def registerClient (now : Nat) (clients : List ClientRec)
    (p : RegisterPayload) : List ClientRec :=
  if clients.any fun c => c.client_id = p.client_id then
    clients.map fun c =>
      if c.client_id = p.client_id then
        clientMarkOnline now
          { c with
            hostname := p.hostname.getD c.hostname
            ip_address := p.ip_address.getD c.ip_address
            scan_range := p.scan_range
            last_seen := some now }
      else c
  else
    clients ++
      [{ client_id := p.client_id
         hostname := p.hostname.getD ""
         ip_address := p.ip_address.getD ""
         port := 8080
         scan_range := p.scan_range
         last_seen := some now
         status := "online"
         is_approved := false
         is_hidden := false }]

/-- `client_heartbeat` (`api.py` lines 220-255): auto-registers an
unknown identity with `status="online"`, refreshes last-seen, calls
`mark_online`, and always answers with a plain success status; no
pending signal exists in the response. -/
def clientHeartbeat (now : Nat) (clients : List ClientRec) (cid : String)
    (p : RegisterPayload) : List ClientRec × String :=
  let upd : ClientRec → ClientRec := fun c =>
    let c1 := clientMarkOnline now { c with last_seen := some now }
    match p.ip_address with
    | some ip => { c1 with ip_address := ip }
    | none => c1
  if clients.any fun c => c.client_id = cid then
    (clients.map fun c => if c.client_id = cid then upd c else c, "success")
  else
    (clients ++
      [upd
        { client_id := cid
          hostname := p.hostname.getD "Unknown"
          ip_address := p.ip_address.getD ""
          port := 8080
          scan_range := none
          last_seen := some now
          status := "online"
          is_approved := false
          is_hidden := false }], "success")

/-- The registration payload of a fresh, never-approved agent. -/
def c4Payload : RegisterPayload :=
  { client_id := "aa:bb:cc", hostname := some "pi-agent"
    ip_address := some "10.0.0.2", scan_range := some "10.0.0.0/30" }

/-- Claim C4 failing input: registering a brand-new identity stores an
unapproved client whose status is `online`, and a subsequent heartbeat
from that unapproved client is answered with plain success (no pending
signal) while the client stays online and unapproved. -/
theorem c4_unapproved_online_bug :
    ((registerClient 0 [] c4Payload).map fun c => (c.status, c.is_approved))
      = [("online", false)] ∧
    (((clientHeartbeat 1 (registerClient 0 [] c4Payload) "aa:bb:cc" c4Payload).1).map
        fun c => (c.status, c.is_approved)) = [("online", false)] ∧
    (clientHeartbeat 1 (registerClient 0 [] c4Payload) "aa:bb:cc" c4Payload).2
      = "success" := by
  refine ⟨by decide, by decide, by decide⟩

/-- Whether a client's last heartbeat is older than the three-minute
cutoff used by `_check_client_heartbeats_job` (`scheduler.py` lines
41-46); a row with no last-seen value is never selected, matching the
SQL comparison against NULL. -/
def isStaleHeartbeat (now : Nat) (c : ClientRec) : Bool :=
  match c.last_seen with
  | some t => decide (t < now - 3)
  | none => false

/-- The per-client effect of one sweep of
`_check_client_heartbeats_job` (`scheduler.py` lines 28-72): clients
whose status is exactly `online` and whose heartbeat is stale are
marked offline; every other client is untouched. -/
def sweepClient (now : Nat) (c : ClientRec) : ClientRec :=
  if c.status = "online" ∧ isStaleHeartbeat now c = true then clientMarkOffline c
  else c

/-- One full sweep of the heartbeat monitor over the clients table. -/
def checkClientHeartbeats (now : Nat) (clients : List ClientRec) :
    List ClientRec :=
  clients.map (sweepClient now)

/-- An approved client stuck in the `scanning` state with a stale
heartbeat. -/
def c8Scanning : ClientRec :=
  { client_id := "s1", hostname := "h1", ip_address := "10.0.0.9"
    port := 8080, scan_range := some "10.0.0.0/24", last_seen := some 0
    status := "scanning", is_approved := true, is_hidden := false }

/-- Claim C8 counterexample: an agent marked `scanning` whose heartbeat
is long stale is not demoted by the sweep, because the sweep only
selects rows whose status is exactly `online`. -/
theorem c8_counterexample :
    c8Scanning.status = "scanning" ∧
    isStaleHeartbeat 100 c8Scanning = true ∧
    (checkClientHeartbeats 100 [c8Scanning]).map ClientRec.status ≠ ["offline"] := by
  refine ⟨rfl, by decide, by decide⟩

/-- Claim C8 amended: each sweep demotes to offline exactly the agents
currently marked `online` whose last heartbeat is older than the
timeout; agents in any other state (including `scanning`) and agents
with fresh heartbeats are untouched, the sweep never promotes an agent
to online, and sweeping twice equals sweeping once. -/
theorem c8_sweep_demotes_stale_online (now : Nat) (c : ClientRec)
    (clients : List ClientRec) :
    (c.status = "online" → isStaleHeartbeat now c = true →
      (sweepClient now c).status = "offline") ∧
    (c.status ≠ "online" → sweepClient now c = c) ∧
    (isStaleHeartbeat now c = false → sweepClient now c = c) ∧
    ((sweepClient now c).status = "online" → c.status = "online") ∧
    checkClientHeartbeats now (checkClientHeartbeats now clients)
      = checkClientHeartbeats now clients := by
  refine ⟨?_, ?_, ?_, ?_, ?_⟩
  · intro h1 h2
    simp [sweepClient, clientMarkOffline, h1, h2]
  · intro h1
    simp [sweepClient, h1]
  · intro h1
    simp [sweepClient, h1]
  · intro h1
    by_cases h : c.status = "online" ∧ isStaleHeartbeat now c = true
    · exact h.1
    · simpa [sweepClient, h] using h1
  · simp only [checkClientHeartbeats, List.map_map]
    apply List.map_congr_left
    intro c _
    by_cases h : c.status = "online" ∧ isStaleHeartbeat now c = true
    · simp [Function.comp, sweepClient, h, clientMarkOffline]
    · simp [Function.comp, sweepClient, h]

/-- An approved, long-stale client in the `online` state. -/
def c8Online : ClientRec :=
  { c8Scanning with client_id := "s2", status := "online" }

/-- Claim C8 witness: the amended theorem applied to a concrete stale
online client, discharging both hypotheses. -/
theorem c8_witness :
    c8Online.status = "online" ∧
    isStaleHeartbeat 100 c8Online = true ∧
    (sweepClient 100 c8Online).status = "offline" :=
  ⟨rfl, by decide,
    (c8_sweep_demotes_stale_online 100 c8Online []).1 rfl (by decide)⟩

/-- A row of the `scans` table (`scan.py`), restricted to the fields
`_execute_scan` touches. -/
structure ScanRec where
  id : Nat
  target : String
  ports : String
  scan_arguments : String
  interval_minutes : Nat
  is_active : Bool
  last_run : Option Nat
  next_run : Option Nat
  deriving DecidableEq, Repr

/-- The value `_execute_scan` returns to its caller: a skipped inactive
scan, an error dictionary, or a success dictionary carrying the number
of triggered clients and the unassigned targets.  Every failure path of
the source returns an error dictionary (the catch-all handler turns
exceptions into one), so the embedding is a total function. -/
inductive ExecOutcome where
  | skippedInactive
  | execError (msg : String)
  | dispatched (clientsTriggered : Nat) (unassignedTargets : List Nat)
  deriving DecidableEq, Repr

/-- Whether an outcome is an error dictionary. -/
def ExecOutcome.isError : ExecOutcome → Bool
  | execError _ => true
  | _ => false

/-- The `ScanResult` row created by `_execute_scan` (`scheduler.py`
lines 145-152, 217-219). -/
structure PendingResultRec where
  scan_id : Nat
  status : String
  started_at : Nat
  resType : String
  deriving DecidableEq, Repr

/-- The rows `_execute_scan` can create: its result row and its task
rows, each task holding the owning client id and its target list. -/
structure DispatchDb where
  results : List PendingResultRec
  tasks : List (String × List Nat)
  deriving DecidableEq, Repr

/-- The client eligibility query of `_execute_scan` (`scheduler.py`
lines 116-121): status online or idle, last seen within five minutes,
and a declared scan range. -/
def eligibleClients (now : Nat) (clients : List ClientRec) : List ClientRec :=
  clients.filter fun c =>
    (decide (c.status = "online") || decide (c.status = "idle")) &&
      (match c.last_seen with
        | some t => decide (now - 5 ≤ t)
        | none => false) &&
      decide (c.scan_range ≠ none)

/-- The `client_ip_map` construction of `_execute_scan` (`scheduler.py`
lines 126-137): each client's declared range is resolved to its host
set and intersected with the scan targets; clients with an empty
overlap are dropped.  `hostsOfRange` abstracts the external
`ipaddress.ip_network(...).hosts()` resolution. -/
def clientIpMapOf (hostsOfRange : String → List Nat) (scanTargets : List Nat)
    (clients : List ClientRec) : List (String × List Nat) :=
  clients.filterMap fun c =>
    match c.scan_range with
    | none => none
    | some rng =>
      let ov := scanTargets.filter fun t => decide (t ∈ hostsOfRange rng)
      if ov = [] then none else some (c.client_id, ov)

/-- The greedy assignment-and-contact loop of `_execute_scan`
(`scheduler.py` lines 153-203): walking the client map in order, each
client receives the still-unassigned part of its overlap (clients whose
residual is empty are skipped), a task row is created for it, and the
triggered-client counter is incremented when the outbound call to the
client succeeds.  Returns the created task rows, the final assigned
set, and the triggered-client count; `reachable` abstracts the outbound
network call. -/
def dispatchLoop (reachable : String → Bool) (assigned : List Nat) :
    List (String × List Nat) → List (String × List Nat) × List Nat × Nat
  | [] => ([], assigned, 0)
  | (cid, ips) :: rest =>
    let ts := ips.filter fun t => decide (t ∉ assigned)
    if ts = [] then dispatchLoop reachable assigned rest
    else
      let r := dispatchLoop reachable (assigned ++ ts) rest
      ((cid, ts) :: r.1, r.2.1, r.2.2 + if reachable cid then 1 else 0)

/-- `_execute_scan` (`scheduler.py` lines 75-246): skips inactive scans,
fails when no targets parse, no clients are eligible, or no ranges
match; otherwise creates the result row and the task rows, contacts the
clients, rolls everything back when zero clients were reachable, and on
success records the partial/full type, updates the scan's last-run and
next-run timestamps, and commits.  `parseTargets` abstracts the target
parsing of lines 107-111. -/
def executeScan (now : Nat) (hostsOfRange : String → List Nat)
    (parseTargets : String → List Nat) (reachable : String → Bool)
    (scan : ScanRec) (clients : List ClientRec) (db : DispatchDb) :
    ScanRec × DispatchDb × ExecOutcome :=
  if !scan.is_active then (scan, db, ExecOutcome.skippedInactive)
  else
    let scanTargets := parseTargets scan.target
    if scanTargets = [] then (scan, db, ExecOutcome.execError "no valid targets")
    else
      let eligible := eligibleClients now clients
      if eligible = [] then (scan, db, ExecOutcome.execError "no active clients")
      else
        let m := clientIpMapOf hostsOfRange scanTargets eligible
        if m = [] then
          (scan, db, ExecOutcome.execError "no clients with matching scan_range")
        else
          let d := dispatchLoop reachable [] m
          if d.2.2 = 0 then
            (scan, db, ExecOutcome.execError "no clients successfully triggered")
          else
            let unassigned := scanTargets.filter fun t => decide (t ∉ d.2.1)
            let resultRow : PendingResultRec :=
              { scan_id := scan.id, status := "pending", started_at := now
                resType := if unassigned = [] then "full" else "partial" }
            ({ scan with
                last_run := some now
                next_run := some (now + scan.interval_minutes) },
              { results := db.results ++ [resultRow], tasks := db.tasks ++ d.1 },
              ExecOutcome.dispatched d.2.2 unassigned)

/-- No target of any task created by the loop was already assigned when
the loop started. -/
theorem dispatchLoop_not_assigned (reachable : String → Bool)
    (assigned : List Nat) (m : List (String × List Nat)) :
    ∀ p ∈ (dispatchLoop reachable assigned m).1, ∀ t ∈ p.2, t ∉ assigned := by
  induction m generalizing assigned with
  | nil => simp [dispatchLoop]
  | cons hd tl ih =>
    obtain ⟨cid, ips⟩ := hd
    intro p hp t ht
    simp only [dispatchLoop] at hp
    by_cases h : ips.filter (fun t => decide (t ∉ assigned)) = []
    · rw [if_pos h] at hp
      exact ih assigned p hp t ht
    · rw [if_neg h] at hp
      rcases List.mem_cons.mp hp with h1 | h1
      · subst h1
        have := (List.mem_filter.mp ht).2
        simpa using this
      · intro hta
        exact ih _ p h1 t ht (List.mem_append_left _ hta)

/-- Every task created by the loop draws its targets from the map entry
of its own client. -/
theorem dispatchLoop_mem_source (reachable : String → Bool)
    (assigned : List Nat) (m : List (String × List Nat)) :
    ∀ p ∈ (dispatchLoop reachable assigned m).1,
      ∃ ips, (p.1, ips) ∈ m ∧ ∀ t ∈ p.2, t ∈ ips := by
  induction m generalizing assigned with
  | nil => simp [dispatchLoop]
  | cons hd tl ih =>
    obtain ⟨cid, ips⟩ := hd
    intro p hp
    simp only [dispatchLoop] at hp
    by_cases h : ips.filter (fun t => decide (t ∉ assigned)) = []
    · rw [if_pos h] at hp
      obtain ⟨ips2, h2, h3⟩ := ih assigned p hp
      exact ⟨ips2, List.mem_cons_of_mem _ h2, h3⟩
    · rw [if_neg h] at hp
      rcases List.mem_cons.mp hp with h1 | h1
      · subst h1
        exact ⟨ips, List.mem_cons_self _ _,
          fun t ht => (List.mem_filter.mp ht).1⟩
      · obtain ⟨ips2, h2, h3⟩ := ih _ p h1
        exact ⟨ips2, List.mem_cons_of_mem _ h2, h3⟩

/-- The target sets of the tasks created by one run of the loop are
pairwise disjoint. -/
theorem dispatchLoop_pairwise_disjoint (reachable : String → Bool)
    (assigned : List Nat) (m : List (String × List Nat)) :
    List.Pairwise (fun a b => ∀ t, t ∈ a.2 → t ∉ b.2)
      (dispatchLoop reachable assigned m).1 := by
  induction m generalizing assigned with
  | nil => simp [dispatchLoop]
  | cons hd tl ih =>
    obtain ⟨cid, ips⟩ := hd
    simp only [dispatchLoop]
    by_cases h : ips.filter (fun t => decide (t ∉ assigned)) = []
    · rw [if_pos h]
      exact ih assigned
    · rw [if_neg h]
      refine List.Pairwise.cons ?_ (ih _)
      intro b hb t ht
      intro htb
      exact dispatchLoop_not_assigned reachable _ tl b hb t htb
        (List.mem_append_right _ ht)

/-- When no client in the map is reachable, the loop triggers zero
clients. -/
theorem dispatchLoop_triggered_zero (reachable : String → Bool)
    (assigned : List Nat) (m : List (String × List Nat))
    (h : ∀ p ∈ m, reachable p.1 = false) :
    (dispatchLoop reachable assigned m).2.2 = 0 := by
  induction m generalizing assigned with
  | nil => simp [dispatchLoop]
  | cons hd tl ih =>
    obtain ⟨cid, ips⟩ := hd
    simp only [dispatchLoop]
    by_cases hf : ips.filter (fun t => decide (t ∉ assigned)) = []
    · rw [if_pos hf]
      exact ih assigned (fun p hp => h p (List.mem_cons_of_mem _ hp))
    · rw [if_neg hf]
      have hc : reachable cid = false := h (cid, ips) (List.mem_cons_self _ _)
      have hrest := fun a => ih a (fun p hp => h p (List.mem_cons_of_mem _ hp))
      simp [hc, hrest]

/-- Every entry of the client map pairs the id of a listed client with
a subset of the scan targets drawn from that client's resolved range. -/
theorem clientIpMapOf_mem (hostsOfRange : String → List Nat)
    (scanTargets : List Nat) (clients : List ClientRec) :
    ∀ q ∈ clientIpMapOf hostsOfRange scanTargets clients,
      (∀ t ∈ q.2, t ∈ scanTargets) ∧
      ∃ c, c ∈ clients ∧ c.client_id = q.1 ∧
        ∃ rng, c.scan_range = some rng ∧ ∀ t ∈ q.2, t ∈ hostsOfRange rng := by
  intro q hq
  simp only [clientIpMapOf, List.mem_filterMap] at hq
  obtain ⟨c, hc, hmatch⟩ := hq
  cases hrng : c.scan_range with
  | none => rw [hrng] at hmatch; exact absurd hmatch (by simp)
  | some rng =>
    rw [hrng] at hmatch
    simp only at hmatch
    by_cases hov : scanTargets.filter (fun t => decide (t ∈ hostsOfRange rng)) = []
    · rw [if_pos hov] at hmatch
      exact absurd hmatch (by simp)
    · rw [if_neg hov] at hmatch
      obtain rfl : (c.client_id, scanTargets.filter
          (fun t => decide (t ∈ hostsOfRange rng))) = q := by
        simpa using hmatch
      refine ⟨fun t ht => (List.mem_filter.mp ht).1, c, hc, rfl, rng, hrng, ?_⟩
      intro t ht
      have := (List.mem_filter.mp ht).2
      simpa using this

/-- Claim C5: the tasks created by one dispatch have pairwise disjoint
target sets, and every target of every task lies in the requested
target set and in the resolved range of the client that owns the task. -/
theorem c5_no_double_assignment (hostsOfRange : String → List Nat)
    (scanTargets : List Nat) (clients : List ClientRec)
    (reachable : String → Bool) :
    List.Pairwise (fun a b => ∀ t, t ∈ a.2 → t ∉ b.2)
      (dispatchLoop reachable []
        (clientIpMapOf hostsOfRange scanTargets clients)).1 ∧
    ∀ p ∈ (dispatchLoop reachable []
        (clientIpMapOf hostsOfRange scanTargets clients)).1,
      ∀ t ∈ p.2, t ∈ scanTargets ∧
        ∃ c, c ∈ clients ∧ c.client_id = p.1 ∧
          ∃ rng, c.scan_range = some rng ∧ t ∈ hostsOfRange rng := by
  refine ⟨dispatchLoop_pairwise_disjoint _ _ _, ?_⟩
  intro p hp t ht
  obtain ⟨ips, hips, hsub⟩ := dispatchLoop_mem_source _ _ _ p hp
  obtain ⟨hsc, c, hc, hcid, rng, hrng, hr⟩ :=
    clientIpMapOf_mem hostsOfRange scanTargets clients (p.1, ips) hips
  exact ⟨hsc t (hsub t ht), c, hc, hcid, rng, hrng, hr t (hsub t ht)⟩

/-- An approved online client owning a small range. -/
def dClient : ClientRec :=
  { client_id := "D", hostname := "d1", ip_address := "10.0.0.2"
    port := 8080, scan_range := some "10.0.0.0/30", last_seen := some 100
    status := "online", is_approved := true, is_hidden := false }

/-- A second approved online client with an overlapping range. -/
def dClientB : ClientRec :=
  { dClient with
    client_id := "E"
    ip_address := "10.0.0.3"
    scan_range := some "10.0.0.0/29" }

/-- Claim C5 witness: the theorem applied to two overlapping clients and
a concrete target set. -/
theorem c5_witness :
    List.Pairwise (fun a b => ∀ t, t ∈ a.2 → t ∉ b.2)
      (dispatchLoop (fun _ => true) []
        (clientIpMapOf (fun _ => [1, 2]) [1, 2, 3] [dClient, dClientB])).1 :=
  (c5_no_double_assignment (fun _ => [1, 2]) [1, 2, 3] [dClient, dClientB]
    (fun _ => true)).1

/-- Claim C6: when no client can be contacted, the dispatch leaves the
scan row and the created rows exactly as they were (the rollback) and
returns an error outcome. -/
theorem c6_zero_contact_rollback (now : Nat) (hostsOfRange : String → List Nat)
    (parseTargets : String → List Nat) (reachable : String → Bool)
    (scan : ScanRec) (clients : List ClientRec) (db : DispatchDb)
    (hact : scan.is_active = true)
    (hfail : ∀ c ∈ clients, reachable c.client_id = false) :
    (executeScan now hostsOfRange parseTargets reachable scan clients db).1
      = scan ∧
    (executeScan now hostsOfRange parseTargets reachable scan clients db).2.1
      = db ∧
    ((executeScan now hostsOfRange parseTargets reachable scan clients
        db).2.2).isError = true := by
  have hm : ∀ p ∈ clientIpMapOf hostsOfRange (parseTargets scan.target)
      (eligibleClients now clients), reachable p.1 = false := by
    intro p hp
    obtain ⟨-, c, hc, hcid, -⟩ :=
      clientIpMapOf_mem hostsOfRange (parseTargets scan.target)
        (eligibleClients now clients) p hp
    have hc2 : c ∈ clients := (List.mem_filter.mp hc).1
    rw [← hcid]
    exact hfail c hc2
  have hz := dispatchLoop_triggered_zero reachable []
    (clientIpMapOf hostsOfRange (parseTargets scan.target)
      (eligibleClients now clients)) hm
  simp only [executeScan, hact]
  split_ifs <;> simp_all [ExecOutcome.isError]

/-- An active scan configuration that has never run. -/
def dScan : ScanRec :=
  { id := 7, target := "10.0.0.0/30", ports := "1-1000"
    scan_arguments := "-sV", interval_minutes := 60, is_active := true
    last_run := none, next_run := none }

/-- The empty table of dispatch-created rows. -/
def dDb : DispatchDb :=
  { results := [], tasks := [] }

/-- Claim C6 witness: the theorem applied to a concrete dispatch in
which the only matching client is unreachable. -/
theorem c6_witness :
    (executeScan 100 (fun _ => [1, 2]) (fun _ => [1, 2]) (fun _ => false)
        dScan [dClient] dDb).1 = dScan ∧
    (executeScan 100 (fun _ => [1, 2]) (fun _ => [1, 2]) (fun _ => false)
        dScan [dClient] dDb).2.1 = dDb ∧
    ((executeScan 100 (fun _ => [1, 2]) (fun _ => [1, 2]) (fun _ => false)
        dScan [dClient] dDb).2.2).isError = true :=
  c6_zero_contact_rollback 100 (fun _ => [1, 2]) (fun _ => [1, 2])
    (fun _ => false) dScan [dClient] dDb rfl (by decide)

/-- Claim C7 counterexample: a dispatch that fails (zero clients
reachable) leaves the last-run and next-run timestamps untouched, so
they are not advanced to the execution time as the claim requires. -/
theorem c7_counterexample :
    ((executeScan 100 (fun _ => [1, 2]) (fun _ => [1, 2]) (fun _ => false)
        dScan [dClient] dDb).2.2).isError = true ∧
    (executeScan 100 (fun _ => [1, 2]) (fun _ => [1, 2]) (fun _ => false)
        dScan [dClient] dDb).1.last_run ≠ some 100 ∧
    (executeScan 100 (fun _ => [1, 2]) (fun _ => [1, 2]) (fun _ => false)
        dScan [dClient] dDb).1.next_run
      ≠ some (100 + dScan.interval_minutes) := by
  refine ⟨by decide, by decide, by decide⟩

/-- Claim C7 amended: the last-run and next-run timestamps advance to
the execution time and to the execution time plus the configured
interval exactly on a successful dispatch; a failed or skipped
execution leaves the scan row (and the created rows) unchanged. -/
theorem c7_timestamps_only_on_success (now : Nat)
    (hostsOfRange : String → List Nat) (parseTargets : String → List Nat)
    (reachable : String → Bool) (scan : ScanRec) (clients : List ClientRec)
    (db : DispatchDb) :
    (∀ n u, (executeScan now hostsOfRange parseTargets reachable scan clients
        db).2.2 = ExecOutcome.dispatched n u →
      (executeScan now hostsOfRange parseTargets reachable scan clients
        db).1.last_run = some now ∧
      (executeScan now hostsOfRange parseTargets reachable scan clients
        db).1.next_run = some (now + scan.interval_minutes)) ∧
    (((executeScan now hostsOfRange parseTargets reachable scan clients
        db).2.2).isError = true →
      (executeScan now hostsOfRange parseTargets reachable scan clients
        db).1 = scan ∧
      (executeScan now hostsOfRange parseTargets reachable scan clients
        db).2.1 = db) ∧
    ((executeScan now hostsOfRange parseTargets reachable scan clients
        db).2.2 = ExecOutcome.skippedInactive →
      (executeScan now hostsOfRange parseTargets reachable scan clients
        db).1 = scan ∧
      (executeScan now hostsOfRange parseTargets reachable scan clients
        db).2.1 = db) := by
  simp only [executeScan]
  split_ifs <;> simp_all [ExecOutcome.isError]

/-- Claim C7 witness: a concrete successful dispatch advances both
timestamps, via the amended theorem. -/
theorem c7_witness :
    (executeScan 100 (fun _ => [1, 2]) (fun _ => [1, 2]) (fun _ => true)
        dScan [dClient] dDb).2.2 = ExecOutcome.dispatched 1 [] ∧
    (executeScan 100 (fun _ => [1, 2]) (fun _ => [1, 2]) (fun _ => true)
        dScan [dClient] dDb).1.last_run = some 100 ∧
    (executeScan 100 (fun _ => [1, 2]) (fun _ => [1, 2]) (fun _ => true)
        dScan [dClient] dDb).1.next_run = some (100 + dScan.interval_minutes) :=
  ⟨by decide,
    (c7_timestamps_only_on_success 100 (fun _ => [1, 2]) (fun _ => [1, 2])
      (fun _ => true) dScan [dClient] dDb).1 1 [] (by decide)⟩

/-- Stable insertion (descending by `started_at`) used to model the
Python `sorted(..., key=started_at, reverse=True)` of
`Scan.get_completed_results` (`scan.py` line 59): an element is placed
before the first element whose key is not larger, so equal keys keep
their original order. -/
def insertByStartedDesc (r : ScanResultRec) :
    List ScanResultRec → List ScanResultRec
  | [] => [r]
  | x :: xs =>
    if x.started_at.getD 0 ≤ r.started_at.getD 0 then r :: x :: xs
    else x :: insertByStartedDesc r xs

/-- Stable descending sort by `started_at`. -/
def sortByStartedDesc : List ScanResultRec → List ScanResultRec
  | [] => []
  | x :: xs => insertByStartedDesc x (sortByStartedDesc xs)

/-- The filter of `Scan.get_completed_results` (`scan.py` lines 56-58):
status completed and a start time present. -/
def completedPred (r : ScanResultRec) : Bool :=
  decide (r.status = "completed") && decide (r.started_at ≠ none)

/-- `Scan.get_completed_results` (`scan.py` lines 46-63): the completed
results that carry a start time, ordered by start time descending. -/
def getCompletedResults (results : List ScanResultRec) : List ScanResultRec :=
  sortByStartedDesc (results.filter completedPred)

/-- `Scan.get_previous_result` (`scan.py` lines 65-85): the completed
result directly after the given one in the descending order; `none`
when the given result is absent or is the oldest. -/
def getPreviousResult (results : List ScanResultRec)
    (before : ScanResultRec) : Option ScanResultRec :=
  let completed := getCompletedResults results
  match completed.findIdx? (fun x => decide (x = before)) with
  | some idx => completed.get? (idx + 1)
  | none => none

/-- A row of the `delta_reports` table (`delta_report.py`), restricted
to the fields `generate_from_results` fills. -/
structure DeltaRec where
  scan_id : Nat
  baseline_result : String
  current_result : String
  delta_data : DeltaData
  deriving DecidableEq, Repr

/-- `DeltaReport.generate_from_results` (`delta_report.py` lines
76-123): refuses unless both results are completed, then builds the
report from the comparison (the comparison itself is the spec-modelled
`compareWith`, see above). -/
def generateFromResults (scanId : Nat) (baseline current : ScanResultRec) :
    Option DeltaRec :=
  if baseline.status = "completed" ∧ current.status = "completed" then
    some
      { scan_id := scanId
        baseline_result := baseline.result_id
        current_result := current.result_id
        delta_data := compareWith baseline.parsed_results current.parsed_results }
  else none

/-- `Scan.generate_delta_report_for_result` (`scan.py` lines 87-115):
nothing is produced for a non-completed result or when no previous
completed result exists; otherwise the report is generated from the
baseline.  A `none` return creates no `DeltaReport` row and raises no
error (the embedding is a total function). -/
def generateDeltaReportForResult (scanId : Nat)
    (results : List ScanResultRec) (current : ScanResultRec) :
    Option DeltaRec :=
  if current.status = "completed" then
    match getPreviousResult results current with
    | none => none
    | some baseline => generateFromResults scanId baseline current
  else none

/-- Claim C9: when no other completed result exists for the scan (the
first scan), delta generation returns nothing, so no report row is
created and no error is raised.  The rows of a scan are pairwise
distinct (`result_id` is a unique column), hence the `Nodup`
hypothesis. -/
theorem c9_first_scan_no_delta (scanId : Nat) (results : List ScanResultRec)
    (current : ScanResultRec) (hnodup : results.Nodup)
    (hfirst : ∀ r ∈ results, r ≠ current →
      ¬(r.status = "completed" ∧ r.started_at ≠ none)) :
    generateDeltaReportForResult scanId results current = none := by
  by_cases hcur : current.status = "completed"
  · have hall : ∀ x ∈ results.filter completedPred, x = current := by
      intro x hx
      have h1 := List.mem_filter.mp hx
      by_contra hne
      refine hfirst x h1.1 hne ?_
      have h2 := h1.2
      simp only [completedPred, Bool.and_eq_true, decide_eq_true_eq] at h2
      exact h2
    have hnd := hnodup.filter completedPred
    rcases hfl : results.filter completedPred with - | ⟨x, - | ⟨y, tl⟩⟩
    · simp [generateDeltaReportForResult, getPreviousResult,
        getCompletedResults, hfl, sortByStartedDesc, hcur]
    · have hx : x = current := hall x (by rw [hfl]; exact List.mem_cons_self _ _)
      subst hx
      simp [generateDeltaReportForResult, getPreviousResult,
        getCompletedResults, hfl, sortByStartedDesc, insertByStartedDesc,
        hcur, List.findIdx?]
    · exfalso
      rw [hfl] at hnd
      have hx : x = current := hall x (by rw [hfl]; exact List.mem_cons_self _ _)
      have hy : y = current := hall y (by rw [hfl]; simp)
      rw [List.nodup_cons] at hnd
      exact hnd.1 (by rw [hx, ← hy]; simp)
  · simp [generateDeltaReportForResult, hcur]

/-- The lone completed result of a scan's first execution. -/
def c9OnlyResult : ScanResultRec :=
  { c1Result0 with
    result_id := "result_1"
    status := "completed"
    started_at := some 10 }

/-- Claim C9 witness: the theorem applied to a scan whose only result is
the current one, discharging both hypotheses. -/
theorem c9_witness :
    generateDeltaReportForResult 3 [c9OnlyResult] c9OnlyResult = none :=
  c9_first_scan_no_delta 3 [c9OnlyResult] c9OnlyResult (by decide) (by decide)

/-- One `port_info` entry of the `results_data` host map consumed by
`ScanTask.aggregate_scan_results` (`scan_task.py` lines 168-210). -/
structure AggPortInfo where
  port : Nat
  service : String
  product : String
  deriving DecidableEq, Repr

/-- Python dict assignment `d[k] = v` on an insertion-ordered map: an
existing key keeps its position and gets the new value, a new key is
appended at the end. -/
def pyDictSet {α β : Type} [DecidableEq α] (k : α) (v : β) :
    List (α × β) → List (α × β)
  | [] => [(k, v)]
  | (k0, v0) :: rest =>
    if k0 = k then (k0, v) :: rest else (k0, v0) :: pyDictSet k v rest

/-- The dict comprehension `{p["port"]: p for p in ports}` of
`scan_task.py` line 194. -/
def buildPortDict (ports : List AggPortInfo) : List (Nat × AggPortInfo) :=
  ports.foldl (fun acc p => pyDictSet p.port p acc) []

/-- The inner merge step of `ScanTask.aggregate_scan_results`
(`scan_task.py` lines 198-205): a port entry whose port number is falsy
is skipped; otherwise the entry is stored when the port is new or when
its service string is strictly longer than the stored one. -/
def mergePortInfo (acc : List (Nat × AggPortInfo)) (pInfo : AggPortInfo) :
    List (Nat × AggPortInfo) :=
  if pInfo.port = 0 then acc
  else
    match acc.lookup pInfo.port with
    | none => pyDictSet pInfo.port pInfo acc
    | some old =>
      if old.service.length < pInfo.service.length then
        pyDictSet pInfo.port pInfo acc
      else acc

/-- The per-host merge of `ScanTask.aggregate_scan_results`
(`scan_task.py` lines 188-208): the stored port list of the host is
rebuilt as a dict keyed by port number, the incoming entries are merged
into it, and the dict values are stored back. -/
def aggregateHost (agg : List (String × List AggPortInfo)) (hostIp : String)
    (hostPorts : List AggPortInfo) : List (String × List AggPortInfo) :=
  let existing := (agg.lookup hostIp).getD []
  let dict := hostPorts.foldl mergePortInfo (buildPortDict existing)
  pyDictSet hostIp (dict.map Prod.snd) agg

/-- `ScanTask.aggregate_scan_results` (`scan_task.py` lines 168-210):
folds the host maps of the given results (results whose `results_data`
is falsy are skipped, modelled by `none`) into one aggregated host
map. -/
def aggregateScanResults
    (results : List (Option (List (String × List AggPortInfo)))) :
    List (String × List AggPortInfo) :=
  results.foldl
    (fun agg res =>
      match res with
      | none => agg
      | some hostsMap =>
        hostsMap.foldl (fun agg2 hp => aggregateHost agg2 hp.1 hp.2) agg)
    []

/-- Aggregating two single-entry results about the same port of the same
host keeps the second entry exactly when its service string is strictly
longer. -/
theorem aggregatePair (hst : String) (p : Nat) (s1 s2 pr1 pr2 : String)
    (hp : p ≠ 0) :
    aggregateScanResults
        [some [(hst, [⟨p, s1, pr1⟩])], some [(hst, [⟨p, s2, pr2⟩])]]
      = [(hst,
          [if s1.length < s2.length then ⟨p, s2, pr2⟩
           else (⟨p, s1, pr1⟩ : AggPortInfo)])] := by
  simp [aggregateScanResults, aggregateHost, buildPortDict, mergePortInfo,
    pyDictSet, hp, List.lookup]
  split_ifs <;> simp

/-- Claim C10: when the same port of the same host appears in two
contributing results, the aggregation keeps the entry with the strictly
longer service string, keeps the earlier entry on equal lengths, and is
therefore order-dependent for distinct entries with equal-length
service strings. -/
theorem c10_longer_service_wins (hst : String) (p : Nat)
    (s1 s2 pr1 pr2 : String) (hp : p ≠ 0) :
    aggregateScanResults
        [some [(hst, [⟨p, s1, pr1⟩])], some [(hst, [⟨p, s2, pr2⟩])]]
      = [(hst,
          [if s1.length < s2.length then ⟨p, s2, pr2⟩
           else (⟨p, s1, pr1⟩ : AggPortInfo)])] ∧
    (s1.length = s2.length → (⟨p, s1, pr1⟩ : AggPortInfo) ≠ ⟨p, s2, pr2⟩ →
      aggregateScanResults
          [some [(hst, [⟨p, s1, pr1⟩])], some [(hst, [⟨p, s2, pr2⟩])]]
        ≠ aggregateScanResults
            [some [(hst, [⟨p, s2, pr2⟩])], some [(hst, [⟨p, s1, pr1⟩])]]) := by
  refine ⟨aggregatePair hst p s1 s2 pr1 pr2 hp, ?_⟩
  intro hlen hne
  rw [aggregatePair hst p s1 s2 pr1 pr2 hp, aggregatePair hst p s2 s1 pr2 pr1 hp]
  rw [if_neg (by rw [hlen]; exact lt_irrefl _),
    if_neg (by rw [hlen]; exact lt_irrefl _)]
  simpa using hne

/-- Claim C10 witness: the theorem applied to port 80 with the
equal-length, distinct service strings http and smtp; the two
aggregation orders disagree. -/
theorem c10_witness :
    (80 : Nat) ≠ 0 ∧
    aggregateScanResults
        [some [("X", [⟨80, "http", "a"⟩])], some [("X", [⟨80, "smtp", "b"⟩])]]
      ≠ aggregateScanResults
          [some [("X", [⟨80, "smtp", "b"⟩])], some [("X", [⟨80, "http", "a"⟩])]] :=
  ⟨by decide,
    (c10_longer_service_wins "X" 80 "http" "smtp" "a" "b" (by decide)).2
      (by decide) (by decide)⟩
